import Mathlib

/-!
Verification development for the conversation orchestrator of the
`oracleService.ts` module.  The TypeScript class `OracleService` is shallowly
embedded: the Firebase-backed message store and the mutable session record
become an explicit `OracleState` value that is threaded through the tick
pipeline, timestamps (`Date.now()`) and random draws (`Math.random()`) become
explicit parameters, and the fallible external text generator becomes an
`Option String` argument (`none` models a thrown error, `some ""` an empty
result).  Every definition mirrors the corresponding source function; the
theorems below settle the specification claims against these definitions.
-/

/-- Embedding of the `OracleMessage` interface.  The `agent` union type of the
source is modelled as a plain string, and the numeric `timestamp` as a natural
number of milliseconds. -/
structure OracleMessage where
  id : String
  agent : String
  message : String
  timestamp : Nat
  type : String
  sessionId : String
  deriving Repr, DecidableEq

/-- Embedding of the `OracleSession` interface.  The optional TypeScript
fields `currentTopic?`, `conversationTheme?`, `lastTopicChange?` and
`topicHistory?` are modelled with `Option` so that an absent field is
distinguishable from an empty or zero value, exactly as in the stored JSON
record. -/
structure OracleSession where
  id : String
  lastAgentIndex : Nat
  messageCount : Nat
  lastMessageTime : Nat
  isActive : Bool
  createdAt : Nat
  updatedAt : Nat
  currentTopic : Option String
  conversationTheme : Option String
  lastTopicChange : Option Nat
  topicHistory : Option (List String)
  deriving Repr, DecidableEq

/-- State visible to the service: the append-only message collection, the
stored session record (absent when no record exists), the in-memory
`this.lastAgentIndex` field, and the `this.isRunning` flag. -/
structure OracleState where
  messages : List OracleMessage
  session : Option OracleSession
  lastAgentIndex : Nat
  isRunning : Bool
  deriving Repr, DecidableEq

/-- Model of the JavaScript `String.prototype.toLowerCase` restricted to the
ASCII range that the keyword table uses: every character is lowered with
`Char.toLower`. -/
def jsToLower (s : String) : String := String.mk (s.data.map Char.toLower)

/-- Model of the JavaScript `String.prototype.includes` substring test, on the
underlying character lists: `hasSubstr needle haystack` is `true` exactly when
`needle` occurs contiguously inside `haystack`. -/
def hasSubstr (needle : List Char) : List Char → Bool
  | [] => needle.isPrefixOf []
  | c :: rest => needle.isPrefixOf (c :: rest) || hasSubstr needle rest

/-- Model of the JavaScript `Array.prototype.slice(-n)` for positive `n`: the
most recent `n` elements (all of them when the list is shorter). -/
def sliceLast (n : Nat) (l : List α) : List α := l.drop (l.length - n)

/-- The fixed agent roster `this.agents` of the source. -/
def agents : List String := ["analyzer", "predictor", "quantum-eraser", "retrocausal"]

/-- The keyword table of `extractTopics`, in source declaration order. -/
def topicKeywords : List (String × List String) :=
  [("market_analysis", ["market", "price", "volume", "liquidity", "trading"]),
   ("holder_behavior", ["holders", "distribution", "concentration", "whales"]),
   ("technical_analysis", ["levels", "support", "resistance", "patterns", "indicators"]),
   ("fundamentals", ["utility", "adoption", "innovation", "technology", "use case"]),
   ("market_sentiment", ["fear", "greed", "optimism", "pessimism", "sentiment"]),
   ("risk_assessment", ["risk", "danger", "warning", "caution", "safety"]),
   ("future_outlook", ["future", "prediction", "forecast", "scenario", "outcome"])]

/-- Embedding of `extractTopics`: lowercase the message, collect every
category one of whose keywords occurs in the lowered text (in table order),
and fall back to the single label `general_market_discussion` when no category
matched. -/
def extractTopics (message : String) : List String :=
  let messageLower := jsToLower message
  let foundTopics := (topicKeywords.filter
    (fun entry => entry.2.any (fun keyword => hasSubstr keyword.data messageLower.data))).map
    (fun entry => entry.1)
  if foundTopics.length > 0 then foundTopics else ["general_market_discussion"]

/-- The argument object passed to `updateSession`.  The source declares the
parameter as `OracleMessage` but both `setConversationTopic` and
`updateConversationTopic` pass a spread session object carrying topic fields,
so the argument is modelled as a record of the optional properties a caller
may supply.  The body of `updateSession` reads only `timestamp` from its
argument; every other field is present here precisely to express that it is
ignored. -/
structure UpdateSessionArg where
  timestamp : Option Nat := none
  messageCount : Option Nat := none
  lastAgentIndex : Option Nat := none
  currentTopic : Option String := none
  conversationTheme : Option String := none
  lastTopicChange : Option Nat := none
  topicHistory : Option (List String) := none
  deriving Repr, DecidableEq

/-- Embedding of `updateSession`.  The source re-reads the stored session and
issues a partial update whose object literal holds exactly the four keys
`lastAgentIndex` (from the in-memory service field), `messageCount` (stored
count plus one), `lastMessageTime` (from `message.timestamp`) and `updatedAt`.
An `undefined` value is deleted from the update before it is sent, so when the
argument carries no `timestamp` the stored `lastMessageTime` is left as it
was; this is modelled with `Option.getD`.  No other stored field is touched by
the partial update. -/
def updateSession (svcLastAgentIndex : Nat) (message : UpdateSessionArg) (now : Nat)
    (stored : OracleSession) : OracleSession :=
  { stored with
    lastAgentIndex := svcLastAgentIndex
    messageCount := stored.messageCount + 1
    lastMessageTime := message.timestamp.getD stored.lastMessageTime
    updatedAt := now }

/-- The `updateSession` argument built from a freshly generated message, as in
`generateNextMessage`. -/
def argOfMessage (m : OracleMessage) : UpdateSessionArg :=
  { timestamp := some m.timestamp }

/-- The `updateSession` argument built from a session spread
`\x7b...session, currentTopic, lastTopicChange, topicHistory\x7d`, as in
`setConversationTopic` and `updateConversationTopic`.  A session object has no
`timestamp` property, so that field is absent. -/
def argOfTopicUpdate (s : OracleSession) (topic : String) (changeTime : Nat)
    (hist : List String) : UpdateSessionArg :=
  { timestamp := none
    messageCount := some s.messageCount
    lastAgentIndex := some s.lastAgentIndex
    currentTopic := some topic
    conversationTheme := s.conversationTheme
    lastTopicChange := some changeTime
    topicHistory := some hist }

/-- Embedding of `setConversationTopic`: read the stored session, extend the
topic history (keeping the last four old entries plus the new topic) and hand
the spread object to `updateSession`. -/
def setConversationTopic (svcLastAgentIndex : Nat) (topic : String) (now : Nat)
    (stored : OracleSession) : OracleSession :=
  let topicHistory := stored.topicHistory.getD []
  updateSession svcLastAgentIndex
    (argOfTopicUpdate stored topic now (sliceLast 4 topicHistory ++ [topic])) now stored

/-- The fixed replacement-topic list of `forceTopicChange`, in source order. -/
def newTopics : List String :=
  ["Analyze the technical indicators and chart patterns",
   "Discuss market sentiment and investor psychology",
   "Examine liquidity dynamics and trading volume patterns",
   "Explore price action and support/resistance levels",
   "Consider macro market conditions and external factors",
   "Evaluate token fundamentals and project development",
   "Assess risk management and position sizing strategies",
   "Review recent news and market catalysts"]

/-- Embedding of `forceTopicChange`: pick a pseudo-random entry of `newTopics`
(the draw `Math.floor(Math.random() * length)` is modelled by the explicit
index `randTopicIdx` reduced modulo the list length) and delegate to
`setConversationTopic`. -/
def forceTopicChange (svcLastAgentIndex : Nat) (randTopicIdx : Nat) (now : Nat)
    (stored : OracleSession) : OracleSession :=
  setConversationTopic svcLastAgentIndex
    (newTopics.getD (randTopicIdx % newTopics.length) "") now stored

/-- Embedding of `updateConversationTopic`: extract topics from the new
message, decide whether to change topic (stored count a multiple of ten, or a
truthy `lastTopicChange` lying strictly more than 300000 milliseconds in the
past — the subtraction is carried out over the integers exactly as JavaScript
arithmetic does) and, when a change is due and a topic was extracted, hand the
spread session carrying the first extracted topic to `updateSession`. -/
def updateConversationTopic (svcLastAgentIndex : Nat) (newMessage : OracleMessage) (now : Nat)
    (stored : OracleSession) : OracleSession :=
  let topics := extractTopics newMessage.message
  let shouldChangeTopic : Bool :=
    (stored.messageCount % 10 == 0) ||
    (match stored.lastTopicChange with
     | none => false
     | some t => t != 0 && decide ((300000 : Int) < (now : Int) - (t : Int)))
  if shouldChangeTopic && topics.length > 0 then
    match topics with
    | [] => stored
    | newTopic :: _ =>
      let topicHistory := stored.topicHistory.getD []
      updateSession svcLastAgentIndex
        (argOfTopicUpdate stored newTopic now (sliceLast 4 topicHistory ++ [newTopic])) now stored
  else stored

/-- Which branch of `determineNextAgent` produced the result. -/
inductive SelPath where
  | emptyHistory
  | loopGuard
  | selfResponse
  | rotation
  deriving Repr, DecidableEq

/-- Result of `determineNextAgent`: the chosen agent, the value of the
in-memory `this.lastAgentIndex` after the call, and the branch taken. -/
structure SelResult where
  agent : String
  newIndex : Nat
  path : SelPath
  deriving Repr, DecidableEq

/-- Embedding of `determineNextAgent`.  The elapsed-seconds computation
`Math.floor((Date.now() - msg.timestamp) / 1000)` is modelled with truncated
natural subtraction and division, which agrees with the JavaScript value on
every comparison against 60 performed here (a message timestamp in the future
yields a negative JavaScript value and a zero model value, and both are below
60).  The draw `Math.random() < 0.15` is the explicit boolean `randBelow15`. -/
def determineNextAgent (recentMessages : List OracleMessage) (lastAgentIndex : Nat) (now : Nat)
    (randBelow15 : Bool) : SelResult :=
  match recentMessages.getLast? with
  | none => { agent := agents.getD 0 "", newIndex := 0, path := SelPath.emptyHistory }
  | some lastMessage =>
    let lastAgent := lastMessage.agent
    let timeSinceLastMessage := (now - lastMessage.timestamp) / 1000
    let recentAgentSequence := (sliceLast 3 recentMessages).map (fun msg => msg.agent)
    let isLooping := recentAgentSequence.all (fun agent => agent == lastAgent)
    if isLooping then
      let nextIndex := (lastAgentIndex + 1) % agents.length
      { agent := agents.getD nextIndex "", newIndex := nextIndex, path := SelPath.loopGuard }
    else
      let shouldSelfRespond := decide (timeSinceLastMessage < 60) && randBelow15
      if shouldSelfRespond then
        { agent := lastAgent, newIndex := lastAgentIndex, path := SelPath.selfResponse }
      else
        let nextIndex := (lastAgentIndex + 1) % agents.length
        { agent := agents.getD nextIndex "", newIndex := nextIndex, path := SelPath.rotation }

/-- The deterministic fallback text of `generateContextualResponse`. -/
def fallbackMessage (agent : String) : String :=
  "The " ++ agent ++ " contemplates the cosmic market patterns from the oracle realm."

/-- Embedding of the repetition detector inside `buildEnhancedContext`: the
last up-to-three message texts, required to number at least two and to be all
equal to the first of them. -/
def isRepeating (recentMessages : List OracleMessage) : Bool :=
  let lastThreeMessages := (sliceLast 3 recentMessages).map (fun msg => msg.message)
  match lastThreeMessages with
  | [] => false
  | firstMsg :: _ =>
    decide (lastThreeMessages.length ≥ 2) && lastThreeMessages.all (fun msg => msg == firstMsg)

/-- Session-affecting part of `buildEnhancedContext`: on an empty history the
builder returns the initial prompt without touching the session; otherwise,
when the repetition detector fires, it invokes `forceTopicChange`.  The prompt
string itself carries no session state and is not modelled.  The source does
not await the asynchronous `setConversationTopic` chain; it is modelled as
running to completion at its call point, the single-threaded
sequentialisation. -/
def buildEnhancedContextSessionEffect (svcLastAgentIndex : Nat)
    (recentMessages : List OracleMessage) (randTopicIdx : Nat) (now : Nat)
    (stored : OracleSession) : OracleSession :=
  if recentMessages.length == 0 then stored
  else if isRepeating recentMessages then
    forceTopicChange svcLastAgentIndex randTopicIdx now stored
  else stored

/-- Embedding of `generateContextualResponse`: `genResult` is the outcome of
the external generator call (`none` models a thrown error, in which case the
catch block returns the fallback object; `some response` models a returned
string, and the expression `response || fallback` substitutes the fallback for
the empty string).  The time-and-random derived message id is the explicit
parameter `msgId`. -/
def generateContextualResponse (agent : String) (genResult : Option String) (msgId : String)
    (now : Nat) (sessionId : String) : OracleMessage :=
  { id := msgId
    agent := agent
    message :=
      match genResult with
      | none => fallbackMessage agent
      | some response => if response == "" then fallbackMessage agent else response
    timestamp := now
    type := "message"
    sessionId := sessionId }

/-- Embedding of one tick, `generateNextMessage`: abort when no session record
exists; read the last eight messages; select the next agent; run the context
builder (whose only session effect is the possible forced topic change);
generate the message with fallback; persist it; run `updateSession`; run
`updateConversationTopic`.  Messages are kept in timestamp order, so the
last-eight query is `sliceLast 8`. -/
def generateNextMessage (genResult : Option String) (msgId : String) (randTopicIdx : Nat)
    (randBelow15 : Bool) (now : Nat) (st : OracleState) : OracleState :=
  match st.session with
  | none => st
  | some session =>
    let recentMessages := sliceLast 8 st.messages
    let sel := determineNextAgent recentMessages st.lastAgentIndex now randBelow15
    let sessionAfterBuild :=
      buildEnhancedContextSessionEffect sel.newIndex recentMessages randTopicIdx now session
    let newMessage := generateContextualResponse sel.agent genResult msgId now session.id
    let sessionAfterUpdate := updateSession sel.newIndex (argOfMessage newMessage) now sessionAfterBuild
    let sessionAfterTopic := updateConversationTopic sel.newIndex newMessage now sessionAfterUpdate
    { st with
      messages := st.messages ++ [newMessage]
      session := some sessionAfterTopic
      lastAgentIndex := sel.newIndex }

/-- The fresh session record written by `initializeSession` when none exists:
counters zeroed and no topic fields. -/
def freshSession (sessionId : String) (now : Nat) : OracleSession :=
  { id := sessionId
    lastAgentIndex := 0
    messageCount := 0
    lastMessageTime := now
    isActive := true
    createdAt := now
    updatedAt := now
    currentTopic := none
    conversationTheme := none
    lastTopicChange := none
    topicHistory := none }

/-- Embedding of `clearMessages`.  The awaited `remove()` on the message
collection succeeds and empties it.  The session-reset `update()` that
follows, however, carries the literal values `currentTopic: undefined`,
`conversationTheme: undefined` and `lastTopicChange: undefined`, and the
Firebase Realtime Database client rejects `undefined` values inside
`update()` by throwing a validation error — the same file scrubs undefined
keys in `updateSession` under the comment `Only include defined values` for
exactly this reason, and `clearMessages` has no such scrub.  The throw is
swallowed by the surrounding catch block, so the session record is left
exactly as it was: counters and topic fields are never reset.  The running
flag is neither read nor written. -/
def clearMessages (st : OracleState) : OracleState :=
  { st with messages := [] }

/-- Message texts fed to ten consecutive ticks in the concrete run below: the
first nine contain no table keyword, the tenth is the keyword `market`. -/
def tickTexts : List String := ["ta", "tb", "tc", "td", "te", "tf", "tg", "th", "ti", "market"]

/-- The state right after `initializeSession` created a fresh session on an
empty store. -/
def st0 : OracleState :=
  { messages := []
    session := some (freshSession "oracle-session-2025" 0)
    lastAgentIndex := 0
    isRunning := true }

/-- The state after ten consecutive successful ticks from `st0`: tick `i`
runs at time `1000 * (i + 1)`, the generator succeeds with the distinct text
`tickTexts[i]`, and every self-response draw fails. -/
def st10 : OracleState :=
  (List.range 10).foldl
    (fun st i => generateNextMessage (some (tickTexts.getD i "")) (tickTexts.getD i "") 0 false
      (1000 * (i + 1)) st)
    st0

/-- A three-message history whose texts are all identical, from three
different agents. -/
def c3history : List OracleMessage :=
  [{ id := "i1", agent := "analyzer", message := "hello", timestamp := 1000,
     type := "message", sessionId := "s" },
   { id := "i2", agent := "predictor", message := "hello", timestamp := 2000,
     type := "message", sessionId := "s" },
   { id := "i3", agent := "quantum-eraser", message := "hello", timestamp := 3000,
     type := "message", sessionId := "s" }]

/-- A session holding a current topic, paired with `c3history`. -/
def c3session : OracleSession :=
  { freshSession "s" 0 with
    messageCount := 3
    currentTopic := some "market_analysis"
    lastMessageTime := 3000 }

/-- A single-message history: `predictor` has spoken exactly once. -/
def c4history : List OracleMessage :=
  [{ id := "i1", agent := "predictor", message := "hello", timestamp := 1000,
     type := "message", sessionId := "s" }]

/-- First of the two messages of the self-response witness history. -/
def witMsgA : OracleMessage :=
  { id := "w1", agent := "analyzer", message := "alpha", timestamp := 0,
    type := "message", sessionId := "s" }

/-- Second of the two messages of the self-response witness history; sent by a
different agent one second later. -/
def witMsgB : OracleMessage :=
  { id := "w2", agent := "predictor", message := "beta", timestamp := 1000,
    type := "message", sessionId := "s" }

/-- A populated state for the clear-messages evaluation: one stored message
and a session with a nonzero counter and live topic fields, orchestrator
stopped. -/
def c8state : OracleState :=
  { messages := [{ id := "i1", agent := "analyzer", message := "hello", timestamp := 1000,
                   type := "message", sessionId := "s" }]
    session := some { freshSession "s" 0 with
      messageCount := 5
      lastMessageTime := 1000
      currentTopic := some "market_analysis"
      conversationTheme := some "oracle_debate"
      lastTopicChange := some 900
      topicHistory := some ["market_analysis"] }
    lastAgentIndex := 1
    isRunning := false }

/-- Helper: a list occurs as a substring of any list that extends it on both
sides. -/
theorem hasSubstr_append (l1 l2 l3 : List Char) : hasSubstr l2 (l1 ++ l2 ++ l3) = true := by
  induction l1 with
  | nil =>
    cases h2 : l2 with
    | nil => cases l3 <;> simp [hasSubstr]
    | cons c cs =>
      simp only [List.nil_append, List.cons_append, hasSubstr, Bool.or_eq_true]
      exact Or.inl (List.isPrefixOf_iff_prefix.mpr ⟨l3, by simp⟩)
  | cons c cs ih =>
    simp only [List.cons_append, hasSubstr, Bool.or_eq_true]
    exact Or.inr ih

/-- Helper: the character data of the fallback text is the agent name
surrounded by the two fixed fragments. -/
theorem fallbackMessage_data (agent : String) :
    (fallbackMessage agent).data =
      "The ".data ++ agent.data ++
        " contemplates the cosmic market patterns from the oracle realm.".data := by
  unfold fallbackMessage
  rw [String.data_append, String.data_append]

/-- Helper: the fallback text is never the empty string. -/
theorem fallbackMessage_ne_empty (agent : String) : fallbackMessage agent ≠ "" := by
  intro h
  have hd : (fallbackMessage agent).data = [] := by rw [h]
  rw [fallbackMessage_data] at hd
  have h4 : "The ".data = ['T', 'h', 'e', ' '] := rfl
  rw [h4] at hd
  simp at hd

/-- Helper: the fallback text contains the agent name as a substring. -/
theorem fallbackMessage_contains_agent (agent : String) :
    hasSubstr agent.data (fallbackMessage agent).data = true := by
  rw [fallbackMessage_data]
  exact hasSubstr_append _ _ _

/-- C1: evaluation of ten consecutive ticks from a fresh session.  The claim
says that on the tick where the incremented `messageCount` is a multiple of
ten the session `currentTopic` is set to the first extracted topic (here
`market_analysis`, since the tenth message is `market`), with
`lastTopicChange` updated and the topic pushed into `topicHistory`.  The code
instead leaves all three topic fields unset, because `updateConversationTopic`
routes the change through `updateSession`, which persists only the four
counter fields — and increments `messageCount` a second time, to eleven. -/
theorem c1_topic_change_never_persisted :
    extractTopics "market" = ["market_analysis"] ∧
    st10.session.map (fun s => (s.currentTopic, s.lastTopicChange, s.topicHistory)) =
      some (none, none, none) ∧
    st10.session.map (fun s => s.messageCount) = some 11 := by decide

/-- C2: evaluation of ten consecutive ticks from a fresh session.  The claim
says `messageCount` always equals the number of persisted messages, each tick
adding exactly one.  After ten ticks the store holds ten messages but the
session counter reads eleven: on the tenth tick `updateConversationTopic`
called `updateSession` a second time, which incremented the counter again. -/
theorem c2_messageCount_double_increment :
    st10.messages.length = 10 ∧ st10.session.map (fun s => s.messageCount) = some 11 := by decide

/-- C3: evaluation of the context-build step on a history of three textually
identical messages.  The repetition detector fires and `forceTopicChange` is
invoked, but the forced change is routed through `setConversationTopic` into
`updateSession`, which drops the topic fields: `currentTopic` keeps its prior
value `market_analysis` (and `messageCount` is spuriously incremented), while
the claim requires `currentTopic` to differ after the call. -/
theorem c3_forced_topic_change_no_effect :
    isRepeating c3history = true ∧
    (buildEnhancedContextSessionEffect 2 c3history 0 4000 c3session).currentTopic =
      some "market_analysis" ∧
    (buildEnhancedContextSessionEffect 2 c3history 0 4000 c3session).messageCount = 4 := by decide

/-- C4: evaluation of the agent selector on a single-message history with
rotation index zero.  The claim (and the source comment, which speaks of the
same agent speaking three or more times in a row) requires the loop guard to
trigger only on histories of length at least three and to return a different
agent; the code takes the loop-guard branch on this one-message history,
because `slice(-3).every` is trivially true on a short list, and returns
`agents[(0 + 1) % 4] = predictor`, the very agent that sent the last
message. -/
theorem c4_loop_guard_short_history_same_agent :
    c4history.length = 1 ∧
    (determineNextAgent c4history 0 1000 false).path = SelPath.loopGuard ∧
    (determineNextAgent c4history 0 1000 false).agent = "predictor" ∧
    c4history.getLast?.map (fun m => m.agent) = some "predictor" := by decide

/-- C5: on every non-empty history, the self-response branch of
`determineNextAgent` is taken only when the elapsed time since the last
message is below sixty seconds and the random draw succeeded; when taken it
returns the agent of the last message and leaves the rotation index
unchanged; and when at least sixty seconds have elapsed the self-response
branch is never taken. -/
theorem determineNextAgent_selfResponse_guard (msgs : List OracleMessage) (idx now : Nat)
    (randBelow15 : Bool) (m : OracleMessage) (hlast : msgs.getLast? = some m) :
    ((determineNextAgent msgs idx now randBelow15).path = SelPath.selfResponse →
      (now - m.timestamp) / 1000 < 60 ∧ randBelow15 = true ∧
      (determineNextAgent msgs idx now randBelow15).agent = m.agent ∧
      (determineNextAgent msgs idx now randBelow15).newIndex = idx) ∧
    (60 ≤ (now - m.timestamp) / 1000 →
      (determineNextAgent msgs idx now randBelow15).path ≠ SelPath.selfResponse) := by
  unfold determineNextAgent
  rw [hlast]
  simp only []
  by_cases hloop :
      (((sliceLast 3 msgs).map (fun msg => msg.agent)).all (fun agent => agent == m.agent)) = true
  · simp [hloop]
  · simp only [Bool.not_eq_true] at hloop
    simp only [hloop, if_false]
    by_cases htime : (now - m.timestamp) / 1000 < 60
    · cases randBelow15 <;> simp [htime]
    · simp [htime]

/-- Witness for C5: a two-agent history one second old with a successful
draw takes the self-response branch, returning the last agent with the
rotation index untouched. -/
theorem determineNextAgent_selfResponse_guard_witness :
    ([witMsgA, witMsgB].getLast? = some witMsgB) ∧
    (((determineNextAgent [witMsgA, witMsgB] 1 2000 true).path = SelPath.selfResponse →
      (2000 - witMsgB.timestamp) / 1000 < 60 ∧ (true : Bool) = true ∧
      (determineNextAgent [witMsgA, witMsgB] 1 2000 true).agent = witMsgB.agent ∧
      (determineNextAgent [witMsgA, witMsgB] 1 2000 true).newIndex = 1) ∧
    (60 ≤ (2000 - witMsgB.timestamp) / 1000 →
      (determineNextAgent [witMsgA, witMsgB] 1 2000 true).path ≠ SelPath.selfResponse)) :=
  ⟨rfl, determineNextAgent_selfResponse_guard [witMsgA, witMsgB] 1 2000 true witMsgB rfl⟩

/-- C6: the topic table lists exactly the seven claimed categories in order;
`extractTopics` depends only on the lowercased text, so it is deterministic
and case-insensitive; and a text in which no keyword of any category occurs
yields exactly the singleton list `general_market_discussion`. -/
theorem extractTopics_deterministic_caseInsensitive :
    topicKeywords.map (fun entry => entry.1) =
      ["market_analysis", "holder_behavior", "technical_analysis", "fundamentals",
       "market_sentiment", "risk_assessment", "future_outlook"] ∧
    (∀ s t : String, jsToLower s = jsToLower t → extractTopics s = extractTopics t) ∧
    (∀ s : String,
      topicKeywords.all (fun entry => entry.2.all
        (fun keyword => !hasSubstr keyword.data (jsToLower s).data)) = true →
      extractTopics s = ["general_market_discussion"]) := by
  refine ⟨rfl, ?_, ?_⟩
  · intro s t h
    unfold extractTopics
    rw [h]
  · intro s hnone
    have hfilter : topicKeywords.filter
        (fun entry => entry.2.any (fun keyword => hasSubstr keyword.data (jsToLower s).data)) =
          [] := by
      rw [List.filter_eq_nil_iff]
      intro e he
      have h1 := (List.all_eq_true.mp hnone) e he
      rw [List.all_eq_true] at h1
      simp only [List.any_eq_true, not_exists]
      rintro kw ⟨hkw, hsub⟩
      have h2 := h1 kw hkw
      rw [hsub] at h2
      simp at h2
    simp only [extractTopics]
    rw [hfilter]
    rfl

/-- Witness for C6: upper- and lower-case spellings of `market` extract the
same topics, and a keyword-free text yields the default singleton. -/
theorem extractTopics_deterministic_caseInsensitive_witness :
    extractTopics "MARKET" = extractTopics "market" ∧
    extractTopics "zzz" = ["general_market_discussion"] :=
  ⟨extractTopics_deterministic_caseInsensitive.2.1 "MARKET" "market" (by decide),
   extractTopics_deterministic_caseInsensitive.2.2 "zzz" (by decide)⟩

/-- C7: for every generator outcome the produced message text is non-empty,
and when the generator threw (`none`) or returned the empty string the text is
the deterministic fallback, which contains the agent name as a substring.
The surrounding try/catch of `generateNextMessage` and of the interval
callback is embedded by this function being total: every outcome, including
failure, yields a message to persist. -/
theorem generateContextualResponse_fallback (agent : String) (genResult : Option String)
    (msgId : String) (now : Nat) (sessionId : String) :
    (generateContextualResponse agent genResult msgId now sessionId).message ≠ "" ∧
    ((genResult = none ∨ genResult = some "") →
      (generateContextualResponse agent genResult msgId now sessionId).message =
        fallbackMessage agent ∧
      hasSubstr agent.data
        (generateContextualResponse agent genResult msgId now sessionId).message.data = true) := by
  cases genResult with
  | none =>
    exact ⟨fallbackMessage_ne_empty agent,
      fun _ => ⟨rfl, fallbackMessage_contains_agent agent⟩⟩
  | some response =>
    by_cases hresp : response = ""
    · subst hresp
      constructor
      · show (if ("" : String) == "" then fallbackMessage agent else "") ≠ ""
        simp only [beq_self_eq_true, if_true]
        exact fallbackMessage_ne_empty agent
      · intro _
        constructor
        · show (if ("" : String) == "" then fallbackMessage agent else "") = fallbackMessage agent
          simp
        · show hasSubstr agent.data
            (if ("" : String) == "" then fallbackMessage agent else "").data = true
          simp only [beq_self_eq_true, if_true]
          exact fallbackMessage_contains_agent agent
    · constructor
      · show (if response == "" then fallbackMessage agent else response) ≠ ""
        have hb : (response == "") = false := by simpa using hresp
        rw [hb]
        simpa using hresp
      · intro hor
        rcases hor with h | h
        · exact absurd h (by simp)
        · exact absurd (by injection h) hresp

/-- Witness for C7: an empty generator result still produces the fallback
text naming the agent. -/
theorem generateContextualResponse_fallback_witness :
    ((some "" : Option String) = none ∨ (some "" : Option String) = some "") ∧
    ((generateContextualResponse "analyzer" (some "") "w" 0 "s").message =
       fallbackMessage "analyzer" ∧
     hasSubstr "analyzer".data
       (generateContextualResponse "analyzer" (some "") "w" 0 "s").message.data = true) :=
  ⟨Or.inr rfl,
   (generateContextualResponse_fallback "analyzer" (some "") "w" 0 "s").2 (Or.inr rfl)⟩

/-- C8: evaluation of `clearMessages` on a populated state.  The claim says a
call (and equally a repeated call) leaves the store in the
empty-with-reset-session state, with counters and topic fields back at their
initial values.  In the code the messages are indeed removed, and a second
call changes nothing further, but the session-reset `update()` throws on its
`undefined` topic-field values and the catch swallows the error, so the
session keeps its old `messageCount = 5` and all its topic fields: the
claimed reset state is never reached. -/
theorem clearMessages_session_not_reset :
    (clearMessages c8state).messages = [] ∧
    clearMessages (clearMessages c8state) = clearMessages c8state ∧
    (clearMessages c8state).session = c8state.session ∧
    (clearMessages c8state).session.map (fun s => (s.messageCount, s.currentTopic)) =
      some (5, some "market_analysis") := by decide

/-- C10: every call to `updateSession`, whatever its argument carries — in
particular the spread session objects with topic fields passed by
`setConversationTopic` and `updateConversationTopic` — changes at most the
four fields `lastAgentIndex`, `messageCount`, `lastMessageTime` and
`updatedAt`, and leaves `currentTopic`, `conversationTheme`,
`lastTopicChange`, `topicHistory` (as well as `id`, `isActive` and
`createdAt`) unchanged. -/
theorem updateSession_frame (svcIdx : Nat) (arg : UpdateSessionArg) (now : Nat)
    (s : OracleSession) :
    (updateSession svcIdx arg now s).currentTopic = s.currentTopic ∧
    (updateSession svcIdx arg now s).conversationTheme = s.conversationTheme ∧
    (updateSession svcIdx arg now s).lastTopicChange = s.lastTopicChange ∧
    (updateSession svcIdx arg now s).topicHistory = s.topicHistory ∧
    (updateSession svcIdx arg now s).id = s.id ∧
    (updateSession svcIdx arg now s).isActive = s.isActive ∧
    (updateSession svcIdx arg now s).createdAt = s.createdAt :=
  ⟨rfl, rfl, rfl, rfl, rfl, rfl, rfl⟩
